import Mathlib

/-!
Verification of the thinking-strategy orchestration core of the
`ai-thinking` repository (`llm_client.py`).

Shallow embedding conventions:
* The OpenAI chat-completion endpoint is an abstract parameter
  `api : String → Nat → Except String String` (prompt, max_tokens ↦ text or
  error message).  `generate_text` wraps it exactly as the Python method
  does: on success it returns the stripped text, on failure it returns an
  error string built from a fixed prefix and the exception message — it
  never propagates the failure.
* The sentence-transformer cosine similarity is an abstract parameter
  `sim : String → String → ℚ` (the scorer is an external model; the core
  only consumes its scalar output, compared with `>` against a threshold).
* `THINKING_STRATEGIES` (defined in `prompt_templates.py`, which only
  supplies data) is an abstract parameter
  `catalog : String → Option StrategyDef`; template `.format` calls are
  modelled as the template functions carried by the strategy definitions.
* History entries are the `{"type": …, "content": …}` dictionaries the
  Python code appends, in the same order and with the same literal strings.
* The `calls` field of a run is ghost instrumentation: the ordered list of
  `(prompt, max_tokens)` arguments of every `generate_text` invocation the
  run performs.  It adds no behaviour; it only makes "which generation
  calls were attempted" an observable of the embedding.
-/

/-- A history entry: the Python dict `{"type": t, "content": c}`. -/
structure HistoryEntry where
  type : String
  content : String
deriving Repr, DecidableEq

/-- An iterative strategy: the `critique` and `refinement` templates,
modelled as the functions their `.format` calls denote
(`critique.format(prompt=…, current_answer=…)` and
`refinement.format(prompt=…, current_answer=…, critique=…)`). -/
structure IterStrategy where
  critique : String → String → String
  refinement : String → String → String → String

/-- A pipeline strategy: the three stage templates used by
`generate_with_deepening` (`step1_overview`, `step2_analysis`,
`step3_refine`), modelled as the functions their `.format` calls denote. -/
structure PipeStrategy where
  step1_overview : String → String
  step2_analysis : String → String → String
  step3_refine : String → String → String

/-- A catalog entry together with its `type` tag
(`'iterative'` or `'pipeline'`). -/
inductive StrategyDef where
  | iterative (s : IterStrategy)
  | pipeline (p : PipeStrategy)

/-- The fixed prefix of the string `generate_text` returns when the
underlying API call raises (`"Kimi API 调用失败，错误信息：\n\n" + str(e)`). -/
def errHead : String := "Kimi API 调用失败，错误信息：\n\n"

/-- `LLMClient.generate_text`: call the API; on success return the stripped
text, on failure catch the exception and return an error-message string.
The function is total — it never propagates the failure. -/
def generate_text (api : String → Nat → Except String String)
    (prompt : String) (max_tokens : Nat) : String :=
  match api prompt max_tokens with
  | .ok result => result.trim
  | .error e => errHead ++ e

/-- The default `threshold` of `_check_convergence`
(`threshold: float = 0.98`; `mkRat 98 100 = 98/100 = 0.98`). -/
def default_threshold : ℚ := mkRat 98 100

/-- `LLMClient._check_convergence`: the similarity of the two answers is
compared strictly (`cosine_sim.item() > threshold`). -/
def check_convergence (sim : String → String → ℚ)
    (answer1 answer2 : String) (threshold : ℚ) : Bool :=
  sim answer1 answer2 > threshold

/-- The observable outcome of one execution of the reflection `for` loop
(from some round onward): the final `current_answer`, the history entries
appended, the number of rounds executed, whether the loop ended via the
convergence `break`, and the ghost trace of generation calls. -/
structure LoopResult where
  finalAnswer : String
  history : List HistoryEntry
  rounds : Nat
  converged : Bool
  calls : List (String × Nat)
deriving Repr, DecidableEq

/-- The `for i in range(max_iterations)` loop of `generate_with_reflection`,
started at 0-based round index `i` with `fuel` rounds remaining
(`fuel = max_iterations - i`; the top-level call is
`reflectionLoop gen sim strat prompt N N 0 initial`).  Each round formats
the critique template, generates the critique (512 tokens), formats the
refinement template, generates the refined answer (2048 tokens), and breaks
iff `_check_convergence(current_answer, refined_answer)` holds; running out
of fuel is the `for`-`else` branch, which appends the completion entry. -/
def reflectionLoop (gen : String → Nat → String) (sim : String → String → ℚ)
    (strat : IterStrategy) (prompt : String) (max_iterations : Nat) :
    Nat → Nat → String → LoopResult
  | 0, _, current =>
      { finalAnswer := current
        history := [⟨"✅ 思考完成",
          "已达到最大迭代次数 " ++ toString max_iterations ++ "。"⟩]
        rounds := 0
        converged := false
        calls := [] }
  | fuel + 1, i, current =>
      let critiquePrompt := strat.critique prompt current
      let critique := gen critiquePrompt 512
      let critiqueEntry : HistoryEntry :=
        ⟨"🤔 第 " ++ toString (i + 1) ++ " 轮反思", critique⟩
      let refinementPrompt := strat.refinement prompt current critique
      let refined := gen refinementPrompt 2048
      if check_convergence sim current refined default_threshold then
        { finalAnswer := refined
          history := [critiqueEntry,
            ⟨"✨ 修正版答案 #" ++ toString (i + 1) ++ " (已收敛)",
             "答案已稳定，生成最终版本。"⟩]
          rounds := 1
          converged := true
          calls := [(critiquePrompt, 512), (refinementPrompt, 2048)] }
      else
        let rest :=
          reflectionLoop gen sim strat prompt max_iterations fuel (i + 1) refined
        { finalAnswer := rest.finalAnswer
          history := critiqueEntry ::
            ⟨"✨ 修正版答案 #" ++ toString (i + 1), "已根据反思生成新版本。"⟩ ::
            rest.history
          rounds := rest.rounds + 1
          converged := rest.converged
          calls := (critiquePrompt, 512) :: (refinementPrompt, 2048) :: rest.calls }

/-- The dictionary returned by both orchestrators:
`{"final_answer": …, "history": …}`. -/
structure RunDict where
  final_answer : String
  history : List HistoryEntry
deriving Repr, DecidableEq

/-- A whole orchestrator invocation: the returned dictionary (or the
`ValueError` message it raises), plus the ghost trace of generation calls. -/
structure OrchestratorRun where
  result : Except String RunDict
  calls : List (String × Nat)

/-- `LLMClient.generate_with_reflection`: validate that `strategy_name`
names an `'iterative'` catalog entry (raising `ValueError` otherwise,
before any generation call), generate the initial answer (2048 tokens),
record it, then run the reflection loop. -/
def generate_with_reflection_run (api : String → Nat → Except String String)
    (sim : String → String → ℚ) (catalog : String → Option StrategyDef)
    (prompt strategy_name : String) (max_iterations : Nat) : OrchestratorRun :=
  match catalog strategy_name with
  | some (.iterative strat) =>
      let initial_answer := generate_text api prompt 2048
      let lr := reflectionLoop (generate_text api) sim strat prompt
        max_iterations max_iterations 0 initial_answer
      { result := .ok
          { final_answer := lr.finalAnswer
            history := ⟨"📝 初版答案", initial_answer⟩ :: lr.history }
        calls := (prompt, 2048) :: lr.calls }
  | _ =>
      { result := .error
          ("策略 \x27" ++ strategy_name ++ "\x27 不是一个有效的迭代策略。")
        calls := [] }

/-- The returned dictionary of `generate_with_reflection` (projection of the
instrumented run). -/
def generate_with_reflection (api : String → Nat → Except String String)
    (sim : String → String → ℚ) (catalog : String → Option StrategyDef)
    (prompt strategy_name : String) (max_iterations : Nat) :
    Except String RunDict :=
  (generate_with_reflection_run api sim catalog prompt strategy_name
    max_iterations).result

/-- `LLMClient.generate_with_deepening`: validate that `strategy_name`
names a `'pipeline'` catalog entry (raising `ValueError` otherwise, before
any generation call), then run the three stages in order — overview
(512 tokens), detailed analysis (1500 tokens), final refinement
(2048 tokens) — recording one history entry per stage, and return the third
stage's output as the final answer. -/
def generate_with_deepening_run (api : String → Nat → Except String String)
    (catalog : String → Option StrategyDef)
    (prompt strategy_name : String) : OrchestratorRun :=
  match catalog strategy_name with
  | some (.pipeline strat) =>
      let prompt_step1 := strat.step1_overview prompt
      let overview := generate_text api prompt_step1 512
      let prompt_step2 := strat.step2_analysis prompt overview
      let detailed_analysis := generate_text api prompt_step2 1500
      let prompt_step3 := strat.step3_refine prompt detailed_analysis
      let final_answer := generate_text api prompt_step3 2048
      { result := .ok
          { final_answer := final_answer
            history := [⟨"➡️ 第一步：快速概览", overview⟩,
                        ⟨"➡️ 第二步：详细分析", detailed_analysis⟩,
                        ⟨"✅ 第三步：生成最终答案", "已整合所有分析，生成最终版本。"⟩] }
        calls := [(prompt_step1, 512), (prompt_step2, 1500), (prompt_step3, 2048)] }
  | _ =>
      { result := .error
          ("策略 \x27" ++ strategy_name ++ "\x27 不是一个有效的流水线策略。")
        calls := [] }

/-- The returned dictionary of `generate_with_deepening`. -/
def generate_with_deepening (api : String → Nat → Except String String)
    (catalog : String → Option StrategyDef)
    (prompt strategy_name : String) : Except String RunDict :=
  (generate_with_deepening_run api catalog prompt strategy_name).result

/-- The termination states named by the specification for an iterative run.
The reflection loop reaches `Converged` exactly when it ends via the
convergence `break`, and `MaxRoundsReached` when the `for`-`else` branch
runs; no failure path exists after strategy validation, because
`generate_text` converts every API failure into an ordinary string. -/
inductive TerminationState where
  | Converged
  | MaxRoundsReached
  | Failed
deriving Repr, DecidableEq

/-- The termination state of a completed reflection loop. -/
def terminationOf (lr : LoopResult) : TerminationState :=
  if lr.converged then .Converged else .MaxRoundsReached

/-- The `current_answer` obtained after `k` further critique/refine rounds,
ignoring convergence (the value recurrence of the loop body). -/
def answerAfter (gen : String → Nat → String) (strat : IterStrategy)
    (prompt : String) : Nat → String → String
  | 0, current => current
  | k + 1, current =>
      let critique := gen (strat.critique prompt current) 512
      answerAfter gen strat prompt k
        (gen (strat.refinement prompt current critique) 2048)

/-- Whether an `Except` is a success (the run did not raise). -/
def exceptOk (e : Except String RunDict) : Bool :=
  match e with
  | .ok _ => true
  | .error _ => false

/-- The dictionary of a successful orchestrator run (junk on an error). -/
def resultDict (r : OrchestratorRun) : RunDict :=
  match r.result with
  | .ok d => d
  | .error e => ⟨e, []⟩

/-! ### Concrete instances used by witnesses and counterexamples -/

/-- A deterministic generator: tags its prompt. -/
def cGen : String → Nat → String := fun p _ => "gen(" ++ p ++ ")"

/-- An API that always succeeds, returning the tagged prompt. -/
def cApi : String → Nat → Except String String :=
  fun p _ => .ok ("gen(" ++ p ++ ")")

/-- An API whose every call raises. -/
def apiFail : String → Nat → Except String String := fun _ _ => .error "boom"

/-- An API whose every call raises, echoing its prompt in the message (so
every `generate_text` result is `errHead ++ prompt`, which is
kernel-computable — `String.trim` on the success path is not). -/
def apiEcho : String → Nat → Except String String := fun p _ => .error p

/-- Whether a catalog lookup produced an entry with `type == 'iterative'`
(the validation condition of `generate_with_reflection`). -/
def is_iterative_entry : Option StrategyDef → Bool
  | some (.iterative _) => true
  | _ => false

/-- Whether a catalog lookup produced an entry with `type == 'pipeline'`
(the validation condition of `generate_with_deepening`). -/
def is_pipeline_entry : Option StrategyDef → Bool
  | some (.pipeline _) => true
  | _ => false

/-- A concrete iterative strategy with injective-looking templates. -/
def cStrat : IterStrategy :=
  ⟨fun _p current => "crit:" ++ current,
   fun _p current critique => "ref:" ++ current ++ ":" ++ critique⟩

/-- A concrete pipeline strategy. -/
def cPipe : PipeStrategy :=
  ⟨fun p => "s1:" ++ p,
   fun p overview => "s2:" ++ p ++ ":" ++ overview,
   fun p analysis => "s3:" ++ p ++ ":" ++ analysis⟩

/-- A concrete catalog holding one iterative and one pipeline strategy. -/
def cCatalog : String → Option StrategyDef := fun n =>
  if n = "self-reflect" then some (.iterative cStrat)
  else if n = "deepen" then some (.pipeline cPipe)
  else none

/-- A scorer that always reports similarity 0 (never converges). -/
def simZero : String → String → ℚ := fun _ _ => mkRat 0 1

/-- A scorer that always reports similarity 1 (e.g. two texts whose
embeddings coincide). -/
def simOne : String → String → ℚ := fun _ _ => mkRat 1 1

/-- A scorer that always reports exactly the threshold value 0.98. -/
def simEq : String → String → ℚ := fun _ _ => mkRat 98 100

/-! ### Structural lemmas about the reflection loop -/

/-- The loop executes at most `fuel` rounds. -/
theorem reflectionLoop_rounds_le (gen : String → Nat → String)
    (sim : String → String → ℚ) (strat : IterStrategy) (prompt : String)
    (N : Nat) : ∀ fuel i current,
    (reflectionLoop gen sim strat prompt N fuel i current).rounds ≤ fuel := by
  intro fuel
  induction fuel with
  | zero => intro i current; simp [reflectionLoop]
  | succ f ih =>
      intro i current
      simp only [reflectionLoop]
      split
      · simp
      · simpa using Nat.succ_le_succ (ih (i + 1) _)

/-- A loop with fuel left executes at least one round. -/
theorem reflectionLoop_rounds_pos (gen : String → Nat → String)
    (sim : String → String → ℚ) (strat : IterStrategy) (prompt : String)
    (N fuel i : Nat) (current : String) :
    1 ≤ (reflectionLoop gen sim strat prompt N (fuel + 1) i current).rounds := by
  simp only [reflectionLoop]
  split
  · simp
  · simp

/-- Every round performs exactly two generation calls, so the loop's call
trace has length twice the number of rounds. -/
theorem reflectionLoop_calls_length (gen : String → Nat → String)
    (sim : String → String → ℚ) (strat : IterStrategy) (prompt : String)
    (N : Nat) : ∀ fuel i current,
    (reflectionLoop gen sim strat prompt N fuel i current).calls.length =
      2 * (reflectionLoop gen sim strat prompt N fuel i current).rounds := by
  intro fuel
  induction fuel with
  | zero => intro i current; simp [reflectionLoop]
  | succ f ih =>
      intro i current
      simp only [reflectionLoop]
      split
      · simp
      · simp only [List.length_cons, ih (i + 1)]
        ring

/-- A loop that never took the convergence break executed all its rounds and
its final answer is the plain `k`-fold critique/refine recurrence. -/
theorem reflectionLoop_not_converged (gen : String → Nat → String)
    (sim : String → String → ℚ) (strat : IterStrategy) (prompt : String)
    (N : Nat) : ∀ fuel i current,
    (reflectionLoop gen sim strat prompt N fuel i current).converged = false →
    (reflectionLoop gen sim strat prompt N fuel i current).rounds = fuel ∧
    (reflectionLoop gen sim strat prompt N fuel i current).finalAnswer =
      answerAfter gen strat prompt fuel current := by
  intro fuel
  induction fuel with
  | zero => intro i current _; simp [reflectionLoop, answerAfter]
  | succ f ih =>
      intro i current h
      simp only [reflectionLoop] at h ⊢
      split at h
      · simp at h
      · rename_i hc
        simp only [hc, if_false] at *
        obtain ⟨h1, h2⟩ := ih (i + 1) _ h
        refine ⟨by simpa using h1, ?_⟩
        simpa [answerAfter] using h2

/-- A loop that took the convergence break executed at least one round. -/
theorem reflectionLoop_converged_rounds_pos (gen : String → Nat → String)
    (sim : String → String → ℚ) (strat : IterStrategy) (prompt : String)
    (N : Nat) : ∀ fuel i current,
    (reflectionLoop gen sim strat prompt N fuel i current).converged = true →
    1 ≤ (reflectionLoop gen sim strat prompt N fuel i current).rounds := by
  intro fuel i current h
  cases fuel with
  | zero => simp [reflectionLoop] at h
  | succ f => exact reflectionLoop_rounds_pos gen sim strat prompt N f i current

/-! ### Claims -/

/-- C1 counterexample: with a scorer that reports similarity exactly 0.98
(the threshold) for every pair, the round-1 measured similarity is ≥ the
threshold, yet a two-round budget executes round 2 as well — the code's
convergence comparison is strict `>`, so similarity equal to the threshold
does not stop the loop. -/
theorem C1_counterexample :
    default_threshold ≤
      simEq "a" (cGen (cStrat.refinement "p" "a"
        (cGen (cStrat.critique "p" "a") 512)) 2048) ∧
    (reflectionLoop cGen simEq cStrat "p" 2 2 0 "a").rounds = 2 ∧
    (reflectionLoop cGen simEq cStrat "p" 2 2 0 "a").converged = false := by
  refine ⟨by decide, by decide, by decide⟩

/-- C1 (amended): for every iterative run, if at a round the measured
similarity between the previous answer and the new refined answer is
STRICTLY GREATER than the convergence threshold, the loop performs no
further round, and the final answer equals the refined answer produced in
that round (the round that triggered convergence is included, not
discarded).  Round `i + 1` is entered with `fuel + 1` rounds of budget
remaining; `rounds = 1` says the triggering round is the only one left. -/
theorem C1_convergence_trigger (gen : String → Nat → String)
    (sim : String → String → ℚ) (strat : IterStrategy) (prompt : String)
    (N fuel i : Nat) (current : String)
    (h : default_threshold <
      sim current (gen (strat.refinement prompt current
        (gen (strat.critique prompt current) 512)) 2048)) :
    (reflectionLoop gen sim strat prompt N (fuel + 1) i current).rounds = 1 ∧
    (reflectionLoop gen sim strat prompt N (fuel + 1) i current).converged = true ∧
    (reflectionLoop gen sim strat prompt N (fuel + 1) i current).finalAnswer =
      gen (strat.refinement prompt current
        (gen (strat.critique prompt current) 512)) 2048 := by
  have hc : check_convergence sim current
      (gen (strat.refinement prompt current
        (gen (strat.critique prompt current) 512)) 2048) default_threshold = true := by
    simpa [check_convergence] using h
  simp [reflectionLoop, hc]

/-- C1 witness: a scorer reporting similarity 1 on every pair makes the
loop stop in its first round with the round-1 refinement as final answer. -/
theorem C1_witness :
    default_threshold <
      simOne "a" (cGen (cStrat.refinement "p" "a"
        (cGen (cStrat.critique "p" "a") 512)) 2048) ∧
    ((reflectionLoop cGen simOne cStrat "p" 2 (1 + 1) 0 "a").rounds = 1 ∧
     (reflectionLoop cGen simOne cStrat "p" 2 (1 + 1) 0 "a").converged = true ∧
     (reflectionLoop cGen simOne cStrat "p" 2 (1 + 1) 0 "a").finalAnswer =
       cGen (cStrat.refinement "p" "a"
         (cGen (cStrat.critique "p" "a") 512)) 2048) :=
  ⟨by decide, C1_convergence_trigger cGen simOne cStrat "p" 2 1 0 "a" (by decide)⟩

/-- C2 counterexample: with an API whose every call raises, the very first
generation call of a one-round reflection run fails, yet the run still
attempts all three generation calls (initial answer, critique, refinement)
and returns an ordinary — not Failed — result: `generate_text` catches the
exception and hands the error text back as the answer. -/
theorem C2_counterexample :
    apiFail "p" 2048 = .error "boom" ∧
    (generate_with_reflection_run apiFail simZero cCatalog "p" "self-reflect"
      1).calls.length = 3 ∧
    exceptOk (generate_with_reflection_run apiFail simZero cCatalog "p"
      "self-reflect" 1).result = true := by
  refine ⟨rfl, by decide, by decide⟩

/-- C2 (amended): a failing underlying API call never aborts a run.  For
every API behaviour (failures included), a validated iterative run returns
a success dictionary and attempts exactly `1 + 2·rounds` generation calls,
and a validated pipeline run returns a success dictionary and attempts
exactly its 3 stage calls; no Failed result exists and nothing is cut
short — the failure text simply flows on as an ordinary answer. -/
theorem C2_failures_do_not_abort (api : String → Nat → Except String String)
    (sim : String → String → ℚ) (catalog : String → Option StrategyDef)
    (prompt name : String) (N : Nat) :
    (∀ strat, catalog name = some (.iterative strat) →
      exceptOk (generate_with_reflection_run api sim catalog prompt name
        N).result = true ∧
      (generate_with_reflection_run api sim catalog prompt name N).calls.length =
        1 + 2 * (reflectionLoop (generate_text api) sim strat prompt N N 0
          (generate_text api prompt 2048)).rounds) ∧
    (∀ strat, catalog name = some (.pipeline strat) →
      exceptOk (generate_with_deepening_run api catalog prompt name).result =
        true ∧
      (generate_with_deepening_run api catalog prompt name).calls.length = 3) := by
  constructor
  · intro strat h
    refine ⟨by simp [generate_with_reflection_run, h, exceptOk], ?_⟩
    simp [generate_with_reflection_run, h, reflectionLoop_calls_length]
    ring
  · intro strat h
    exact ⟨by simp [generate_with_deepening_run, h, exceptOk],
           by simp [generate_with_deepening_run, h]⟩

/-- C2 witness: the always-failing API instantiates the amended claim for
both orchestrators. -/
theorem C2_witness :
    (exceptOk (generate_with_reflection_run apiFail simZero cCatalog "p"
       "self-reflect" 1).result = true ∧
     (generate_with_reflection_run apiFail simZero cCatalog "p" "self-reflect"
       1).calls.length =
       1 + 2 * (reflectionLoop (generate_text apiFail) simZero cStrat "p" 1 1 0
         (generate_text apiFail "p" 2048)).rounds) ∧
    (exceptOk (generate_with_deepening_run apiFail cCatalog "p" "deepen").result
       = true ∧
     (generate_with_deepening_run apiFail cCatalog "p" "deepen").calls.length
       = 3) :=
  ⟨(C2_failures_do_not_abort apiFail simZero cCatalog "p" "self-reflect" 1).1
     cStrat rfl,
   (C2_failures_do_not_abort apiFail simZero cCatalog "p" "deepen" 1).2
     cPipe rfl⟩

/-- C3 counterexample: the convergence check applies no empty-text rule.
With a scorer that reports similarity 1 for the pair `("", "anything")`
(e.g. one whose embeddings of the two texts coincide), the convergence test
SUCCEEDS even though the first text is empty — nothing in the code forces
similarity 0.0 or a failed test on empty input. -/
theorem C3_counterexample :
    check_convergence simOne "" "anything" default_threshold = true := by
  decide

/-- C3 (amended): for every pair of texts where at least one text is empty,
the convergence check simply uses the scorer's raw reported value: the test
succeeds exactly when that value strictly exceeds the threshold.  No
degenerate rule maps empty input to similarity 0.0 and no guarantee exists
that the loop continues. -/
theorem C3_no_empty_rule (sim : String → String → ℚ) (a b : String)
    (h : a = "" ∨ b = "") :
    (check_convergence sim a b default_threshold = true ↔
      default_threshold < sim a b) := by
  simp [check_convergence]

/-- C3 witness: the always-1 scorer on the pair `("", "anything")`. -/
theorem C3_witness :
    check_convergence simOne "" "anything" default_threshold = true ↔
      default_threshold < simOne "" "anything" :=
  C3_no_empty_rule simOne "" "anything" (Or.inl rfl)

/-- C4: for every iterative run with `maxIterations = N ≥ 1`, the number of
critique/refinement rounds executed is at most `N`, and the run terminates
in exactly one of the terminal states Converged, MaxRoundsReached or
Failed (the loop either breaks on convergence or exhausts its budget; no
failure path survives `generate_text`'s exception handling). -/
theorem C4_termination (gen : String → Nat → String)
    (sim : String → String → ℚ) (strat : IterStrategy) (prompt : String)
    (N : Nat) (initial : String) (hN : 1 ≤ N) :
    (reflectionLoop gen sim strat prompt N N 0 initial).rounds ≤ N ∧
    (terminationOf (reflectionLoop gen sim strat prompt N N 0 initial) =
       .Converged ∨
     terminationOf (reflectionLoop gen sim strat prompt N N 0 initial) =
       .MaxRoundsReached ∨
     terminationOf (reflectionLoop gen sim strat prompt N N 0 initial) =
       .Failed) := by
  refine ⟨reflectionLoop_rounds_le gen sim strat prompt N N 0 initial, ?_⟩
  unfold terminationOf
  split
  · exact Or.inl rfl
  · exact Or.inr (Or.inl rfl)

/-- C4 witness: a one-round run with the never-converging scorer. -/
theorem C4_witness :
    (reflectionLoop cGen simZero cStrat "p" 1 1 0 "a").rounds ≤ 1 ∧
    (terminationOf (reflectionLoop cGen simZero cStrat "p" 1 1 0 "a") =
       .Converged ∨
     terminationOf (reflectionLoop cGen simZero cStrat "p" 1 1 0 "a") =
       .MaxRoundsReached ∨
     terminationOf (reflectionLoop cGen simZero cStrat "p" 1 1 0 "a") =
       .Failed) :=
  C4_termination cGen simZero cStrat "p" 1 "a" (by decide)

/-- C5 counterexample: in a concrete one-round loop the refined answer of
round 1 — which is also the final answer — appears in no appended history
entry at all: the round's second entry carries the fixed message
"已根据反思生成新版本。" instead of the refined answer text, and no entry
records the similarity value (entries have only a `type` and a `content`
string).  The claimed per-round record
{index, critique, refinedAnswer, similarity} is not what the code appends. -/
theorem C5_counterexample :
    (reflectionLoop cGen simZero cStrat "p" 1 1 0 "a").finalAnswer =
      "gen(ref:a:gen(crit:a))" ∧
    ((reflectionLoop cGen simZero cStrat "p" 1 1 0 "a").history.all
      (fun e => e.content != "gen(ref:a:gen(crit:a))")) = true := by
  refine ⟨by decide, by decide⟩

/-- C5 (amended): every executed round `i + 1` appends, in round order, two
records: first a critique entry whose content is the round's critique text,
then a refinement status entry whose content is a fixed message ("已根据反
思生成新版本。", or "答案已稳定，生成最终版本。" when the round converged)
— the refined answer text itself and the similarity value are not written
into the history. -/
theorem C5_round_records (gen : String → Nat → String)
    (sim : String → String → ℚ) (strat : IterStrategy) (prompt : String)
    (N fuel i : Nat) (current : String) :
    (reflectionLoop gen sim strat prompt N (fuel + 1) i current).history.take 2 =
      [⟨"🤔 第 " ++ toString (i + 1) ++ " 轮反思",
         gen (strat.critique prompt current) 512⟩,
       if check_convergence sim current
            (gen (strat.refinement prompt current
              (gen (strat.critique prompt current) 512)) 2048)
            default_threshold then
         ⟨"✨ 修正版答案 #" ++ toString (i + 1) ++ " (已收敛)",
          "答案已稳定，生成最终版本。"⟩
       else
         ⟨"✨ 修正版答案 #" ++ toString (i + 1), "已根据反思生成新版本。"⟩] := by
  simp only [reflectionLoop]
  split
  · rename_i hc
    simp [hc]
  · rename_i hc
    simp [hc]

/-- C6 counterexample: in a concrete pipeline run the history does have 3
entries in stage order and the final answer is the third stage's output,
but the third entry does not record that output: its content is the fixed
message "已整合所有分析，生成最终版本。", which differs from the final
answer. -/
theorem C6_counterexample :
    (resultDict (generate_with_deepening_run apiEcho cCatalog "p"
      "deepen")).history.length = 3 ∧
    (resultDict (generate_with_deepening_run apiEcho cCatalog "p"
      "deepen")).history.getLast? =
      some ⟨"✅ 第三步：生成最终答案", "已整合所有分析，生成最终版本。"⟩ ∧
    ("已整合所有分析，生成最终版本。" !=
      (resultDict (generate_with_deepening_run apiEcho cCatalog "p"
        "deepen")).final_answer) = true := by
  refine ⟨by decide, by decide, by decide⟩

/-- C6 (amended): a validated pipeline run executes its three declared
stages in declared order, threading each stage's output forward, and
returns exactly 3 history entries in that order; the first two entries
record the outputs of stages 1 and 2, the third entry records a fixed
completion message (not the stage output), and the final answer equals the
third stage's output. -/
theorem C6_pipeline_shape (api : String → Nat → Except String String)
    (catalog : String → Option StrategyDef) (prompt name : String)
    (strat : PipeStrategy) (h : catalog name = some (.pipeline strat)) :
    (generate_with_deepening_run api catalog prompt name).result = .ok
      { final_answer := generate_text api (strat.step3_refine prompt
          (generate_text api (strat.step2_analysis prompt
            (generate_text api (strat.step1_overview prompt) 512)) 1500)) 2048
        history := [⟨"➡️ 第一步：快速概览",
            generate_text api (strat.step1_overview prompt) 512⟩,
          ⟨"➡️ 第二步：详细分析",
            generate_text api (strat.step2_analysis prompt
              (generate_text api (strat.step1_overview prompt) 512)) 1500⟩,
          ⟨"✅ 第三步：生成最终答案", "已整合所有分析，生成最终版本。"⟩] } := by
  simp [generate_with_deepening_run, h]

/-- C6 witness: the amended pipeline shape at a concrete strategy and API. -/
theorem C6_witness :
    (generate_with_deepening_run apiEcho cCatalog "p" "deepen").result = .ok
      { final_answer := generate_text apiEcho (cPipe.step3_refine "p"
          (generate_text apiEcho (cPipe.step2_analysis "p"
            (generate_text apiEcho (cPipe.step1_overview "p") 512)) 1500)) 2048
        history := [⟨"➡️ 第一步：快速概览",
            generate_text apiEcho (cPipe.step1_overview "p") 512⟩,
          ⟨"➡️ 第二步：详细分析",
            generate_text apiEcho (cPipe.step2_analysis "p"
              (generate_text apiEcho (cPipe.step1_overview "p") 512)) 1500⟩,
          ⟨"✅ 第三步：生成最终答案", "已整合所有分析，生成最终版本。"⟩] } :=
  C6_pipeline_shape apiEcho cCatalog "p" "deepen" cPipe rfl

/-- C7: an iterative run that completes all `maxIterations = N ≥ 1` rounds
without the convergence test ever succeeding terminates as
MaxRoundsReached, executed exactly `N` rounds, and its final answer is the
refined answer of the last round (the `N`-fold critique/refine recurrence
applied to the initial answer). -/
theorem C7_max_rounds_reached (gen : String → Nat → String)
    (sim : String → String → ℚ) (strat : IterStrategy) (prompt : String)
    (N : Nat) (initial : String) (hN : 1 ≤ N)
    (h : (reflectionLoop gen sim strat prompt N N 0 initial).converged = false) :
    terminationOf (reflectionLoop gen sim strat prompt N N 0 initial) =
      .MaxRoundsReached ∧
    (reflectionLoop gen sim strat prompt N N 0 initial).rounds = N ∧
    (reflectionLoop gen sim strat prompt N N 0 initial).finalAnswer =
      answerAfter gen strat prompt N initial := by
  obtain ⟨h1, h2⟩ :=
    reflectionLoop_not_converged gen sim strat prompt N N 0 initial h
  exact ⟨by simp [terminationOf, h], h1, h2⟩

/-- C7 witness: a one-round run under the never-converging scorer. -/
theorem C7_witness :
    terminationOf (reflectionLoop cGen simZero cStrat "p" 1 1 0 "a") =
      .MaxRoundsReached ∧
    (reflectionLoop cGen simZero cStrat "p" 1 1 0 "a").rounds = 1 ∧
    (reflectionLoop cGen simZero cStrat "p" 1 1 0 "a").finalAnswer =
      answerAfter cGen cStrat "p" 1 "a" :=
  C7_max_rounds_reached cGen simZero cStrat "p" 1 "a" (by decide) (by decide)

/-- C8: calling an orchestrator with a strategy name that is absent from
the catalog, or present with the other kind, raises the `ValueError`
before any generation call: the result is the error message and the trace
of generation calls is empty, so no partial history is produced. -/
theorem C8_validation (api : String → Nat → Except String String)
    (sim : String → String → ℚ) (catalog : String → Option StrategyDef)
    (prompt name : String) (N : Nat) :
    (is_iterative_entry (catalog name) = false →
      (generate_with_reflection_run api sim catalog prompt name N).result =
        .error ("策略 \x27" ++ name ++ "\x27 不是一个有效的迭代策略。") ∧
      (generate_with_reflection_run api sim catalog prompt name N).calls = []) ∧
    (is_pipeline_entry (catalog name) = false →
      (generate_with_deepening_run api catalog prompt name).result =
        .error ("策略 \x27" ++ name ++ "\x27 不是一个有效的流水线策略。") ∧
      (generate_with_deepening_run api catalog prompt name).calls = []) := by
  constructor
  · intro h
    cases hc : catalog name with
    | none => simp [generate_with_reflection_run, hc]
    | some sd =>
        cases sd with
        | iterative s => rw [hc] at h; simp [is_iterative_entry] at h
        | pipeline p => simp [generate_with_reflection_run, hc]
  · intro h
    cases hc : catalog name with
    | none => simp [generate_with_deepening_run, hc]
    | some sd =>
        cases sd with
        | iterative s => simp [generate_with_deepening_run, hc]
        | pipeline p => rw [hc] at h; simp [is_pipeline_entry] at h

/-- C8 witness: invoking each orchestrator with the other kind's strategy
name (the kind-mismatch case) errors with an empty call trace. -/
theorem C8_witness :
    ((generate_with_reflection_run cApi simZero cCatalog "p" "deepen" 1).result =
        .error ("策略 \x27" ++ "deepen" ++ "\x27 不是一个有效的迭代策略。") ∧
     (generate_with_reflection_run cApi simZero cCatalog "p" "deepen" 1).calls
       = []) ∧
    ((generate_with_deepening_run cApi cCatalog "p" "self-reflect").result =
        .error ("策略 \x27" ++ "self-reflect" ++
          "\x27 不是一个有效的流水线策略。") ∧
     (generate_with_deepening_run cApi cCatalog "p" "self-reflect").calls
       = []) :=
  ⟨(C8_validation cApi simZero cCatalog "p" "deepen" 1).1 (by decide),
   (C8_validation cApi simZero cCatalog "p" "self-reflect" 1).2 (by decide)⟩

/-- C9: `generate_text` always returns a string and never propagates the
API's failure: when the call raises with message `e`, the returned string
is the fixed error prefix followed by `e`; when it succeeds with `r`, the
returned string is `r` stripped. -/
theorem C9_generate_text_never_raises
    (api : String → Nat → Except String String) (prompt : String)
    (max_tokens : Nat) :
    (∀ e, api prompt max_tokens = .error e →
      generate_text api prompt max_tokens = errHead ++ e) ∧
    (∀ r, api prompt max_tokens = .ok r →
      generate_text api prompt max_tokens = r.trim) := by
  constructor
  · intro e h; simp [generate_text, h]
  · intro r h; simp [generate_text, h]

/-- C9 witness: the always-failing API yields the prefixed error string. -/
theorem C9_witness : generate_text apiFail "p" 5 = errHead ++ "boom" :=
  (C9_generate_text_never_raises apiFail "p" 5).1 "boom" rfl

/-- C10: the convergence decision of every reflection round uses the fixed
default threshold 0.98 (`generate_with_reflection` passes no threshold) and
the comparison is strict: the round converges — the loop takes the break,
making this its only remaining round — exactly when the measured similarity
is strictly greater than 98/100. -/
theorem C10_fixed_strict_threshold (gen : String → Nat → String)
    (sim : String → String → ℚ) (strat : IterStrategy) (prompt : String)
    (N fuel i : Nat) (current : String) :
    default_threshold = 98 / 100 ∧
    (check_convergence sim current
        (gen (strat.refinement prompt current
          (gen (strat.critique prompt current) 512)) 2048)
        default_threshold = true ↔
      (98 / 100 : ℚ) < sim current (gen (strat.refinement prompt current
        (gen (strat.critique prompt current) 512)) 2048)) ∧
    (((reflectionLoop gen sim strat prompt N (fuel + 1) i current).converged =
        true ∧
      (reflectionLoop gen sim strat prompt N (fuel + 1) i current).rounds = 1) ↔
      (98 / 100 : ℚ) < sim current (gen (strat.refinement prompt current
        (gen (strat.critique prompt current) 512)) 2048)) := by
  have h98 : default_threshold = (98 / 100 : ℚ) := by
    norm_num [default_threshold]
  refine ⟨h98, by simp [check_convergence, h98], ?_⟩
  constructor
  · rintro ⟨hconv, hr⟩
    by_contra hlt
    have hc : check_convergence sim current
        (gen (strat.refinement prompt current
          (gen (strat.critique prompt current) 512)) 2048)
        default_threshold = false := by
      simp [check_convergence, h98]
      exact le_of_not_lt hlt
    simp [reflectionLoop, hc] at hconv hr
    have hpos := reflectionLoop_converged_rounds_pos gen sim strat prompt N
      fuel (i + 1) _ hconv
    omega
  · intro hgt
    have hc : check_convergence sim current
        (gen (strat.refinement prompt current
          (gen (strat.critique prompt current) 512)) 2048)
        default_threshold = true := by
      simp [check_convergence, h98]
      exact hgt
    simp [reflectionLoop, hc]
